import Mathlib

/-!
Verification of `slsim/lensed_population_base.py`: the abstract base class
`LensedPopulationBase`, its validating constructor `__init__`, and its four
abstract methods, modelled by a shallow embedding.  Python attribute values
are opaque and are modelled by a type parameter `α`; Python `None` is
`Option.none`.
-/

namespace Slsim

/-- Opaque Python values used to instantiate the embedding at concrete
inputs: integers, strings, and otherwise-opaque objects identified by a
numeric tag. -/
inductive PyVal where
  | int (z : ℤ)
  | str (s : String)
  | obj (id : ℕ)
deriving DecidableEq

/-- Python exceptions arising in this module: the `ValueError` raised by
`__init__` and the `TypeError` raised on instantiating the abstract class. -/
inductive PyError where
  | valueError (msg : String)
  | typeError (msg : String)
deriving DecidableEq

/-- The value stored in the `cosmo` attribute: either the very object passed
by the caller (kept as-is, hence reference-identical to the input), or the
default `FlatLambdaCDM(H0=70, Om0=0.3)` constructed inside `__init__`. -/
inductive CosmoVal (α : Type) where
  | given (c : α)
  | flatLambdaCDM (H0 Om0 : ℚ)
deriving DecidableEq

/-- Attribute state of a `LensedPopulationBase` instance.  Each field models
one attribute slot of the Python object: the outer `none` means the
attribute has not been assigned yet (so partially initialised objects are
representable), and `some v` means the attribute holds value `v`.  The five
optional attributes store the `Option α` argument passed by the caller
verbatim (Python `None` included); `sky_area` is only ever assigned a
non-`None` value by `__init__`; `cosmo` holds a `CosmoVal`. -/
structure LensedPopulationBase (α : Type) where
  lightcurve_time : Option (Option α) := none
  sn_type : Option (Option α) := none
  sn_absolute_mag_band : Option (Option α) := none
  sn_absolute_zpsys : Option (Option α) := none
  sn_modeldir : Option (Option α) := none
  sky_area : Option α := none
  cosmo : Option (CosmoVal α) := none
deriving DecidableEq

/-- The `ValueError` message raised by `__init__` when `sky_area` is `None`. -/
def noSkyAreaMsg : String := "No sky area provided. Please provide needed sky area."

/-- The warning message emitted by `__init__` when `cosmo` is `None`. -/
def noCosmologyWarning : String :=
  "No cosmology provided, instead uses flat LCDM with default parameters"

/-- The default cosmology `FlatLambdaCDM(H0=70, Om0=0.3)` substituted when
`cosmo` is `None`. -/
def defaultCosmo (α : Type) : CosmoVal α := CosmoVal.flatLambdaCDM 70 (3 / 10)

/-- Outcome of running the body of `__init__`: the attribute state `self` at
the end of the run (or at the moment of the raise), the warnings emitted
along the way, and the exception raised, if any. -/
structure InitTrace (α : Type) where
  self : LensedPopulationBase α
  warnings : List String
  error : Option PyError
deriving DecidableEq

/-- Statement-by-statement embedding of `LensedPopulationBase.__init__`:
first the five optional attributes are assigned, then `sky_area` is checked
(raising `ValueError` if it is `None`, with no further statement executed)
and assigned, then a missing `cosmo` is replaced by the default flat LCDM
model after emitting a warning, and finally `cosmo` is assigned. -/
def initRun {α : Type} (sky_area cosmo lightcurve_time sn_type
    sn_absolute_mag_band sn_absolute_zpsys sn_modeldir : Option α) :
    InitTrace α :=
  let self : LensedPopulationBase α :=
    { lightcurve_time := some lightcurve_time
      sn_type := some sn_type
      sn_absolute_mag_band := some sn_absolute_mag_band
      sn_absolute_zpsys := some sn_absolute_zpsys
      sn_modeldir := some sn_modeldir }
  match sky_area with
  | none =>
    { self := self
      warnings := []
      error := some (PyError.valueError noSkyAreaMsg) }
  | some sa =>
    let self := { self with sky_area := some sa }
    match cosmo with
    | none =>
      { self := { self with cosmo := some (defaultCosmo α) }
        warnings := [noCosmologyWarning]
        error := none }
    | some c =>
      { self := { self with cosmo := some (CosmoVal.given c) }
        warnings := []
        error := none }

/-- The constructor as seen by a caller (through a concrete subclass):
`Except`-style result of `__init__`.  On success it yields the fully
initialised object together with the warnings emitted; on failure the
raised exception propagates and no object is produced. -/
def init {α : Type} (sky_area cosmo lightcurve_time sn_type
    sn_absolute_mag_band sn_absolute_zpsys sn_modeldir : Option α) :
    Except PyError (LensedPopulationBase α × List String) :=
  let t := initRun sky_area cosmo lightcurve_time sn_type
    sn_absolute_mag_band sn_absolute_zpsys sn_modeldir
  match t.error with
  | some e => Except.error e
  | none => Except.ok (t.self, t.warnings)

/-- The names of the four `@abstractmethod`-decorated methods of
`LensedPopulationBase`. -/
def abstractMethods : List String :=
  ["select_lens_at_random", "deflector_number", "source_number", "draw_population"]

/-- The `TypeError` message for instantiating the abstract class. -/
def cantInstantiateMsg : String :=
  "Can't instantiate abstract class LensedPopulationBase with abstract methods"

/-- Python's ABC mechanism applied to this class: a class (the base class
itself when `overridden` is empty, or a subclass that concretely overrides
exactly the listed methods) can be instantiated only if every abstract
method has a concrete override; otherwise a `TypeError` is raised before
`__init__` runs. -/
def instantiate {α : Type} (overridden : List String)
    (sky_area cosmo lightcurve_time sn_type sn_absolute_mag_band
      sn_absolute_zpsys sn_modeldir : Option α) :
    Except PyError (LensedPopulationBase α × List String) :=
  if ∀ m ∈ abstractMethods, m ∈ overridden then
    init sky_area cosmo lightcurve_time sn_type sn_absolute_mag_band
      sn_absolute_zpsys sn_modeldir
  else
    Except.error (PyError.typeError cantInstantiateMsg)

/-- Method `select_lens_at_random`: abstract, body is only `pass`, so the
inherited base implementation leaves `self` unchanged and returns `None`
without raising. -/
def LensedPopulationBase.select_lens_at_random {α : Type}
    (self : LensedPopulationBase α) :
    LensedPopulationBase α × Except PyError (Option PyVal) :=
  (self, Except.ok none)

/-- Method `deflector_number`: abstract, body is only `pass`. -/
def LensedPopulationBase.deflector_number {α : Type}
    (self : LensedPopulationBase α) :
    LensedPopulationBase α × Except PyError (Option PyVal) :=
  (self, Except.ok none)

/-- Method `source_number`: abstract, body is only `pass`. -/
def LensedPopulationBase.source_number {α : Type}
    (self : LensedPopulationBase α) :
    LensedPopulationBase α × Except PyError (Option PyVal) :=
  (self, Except.ok none)

/-- Method `draw_population(**kwargs)`: abstract, body is only `pass`. -/
def LensedPopulationBase.draw_population {α : Type}
    (self : LensedPopulationBase α) (kwargs : List (String × α)) :
    LensedPopulationBase α × Except PyError (Option PyVal) :=
  (self, Except.ok none)

/-- Plain Python attribute assignment `obj.sky_area = v` performed on a
constructed object.  The class defines no read-only mechanism (no
`property`, no `__slots__`, no frozen dataclass), so the assignment
succeeds and overwrites the stored field. -/
def LensedPopulationBase.set_sky_area {α : Type}
    (self : LensedPopulationBase α) (v : α) : LensedPopulationBase α :=
  { self with sky_area := some v }

/-- Claim C1: for every combination of the other constructor parameters,
constructing with `sky_area = None` raises `ValueError` and never produces
a configuration object. -/
theorem init_none_sky_area_raises (α : Type)
    (cosmo lightcurve_time sn_type sn_absolute_mag_band sn_absolute_zpsys
      sn_modeldir : Option α) :
    init none cosmo lightcurve_time sn_type sn_absolute_mag_band
      sn_absolute_zpsys sn_modeldir
      = Except.error (PyError.valueError noSkyAreaMsg) := rfl

/-- Claim C2: for every non-`None` `sky_area`, constructing with
`cosmo = None` succeeds, emits exactly one warning, and stores as the
cosmology a flat Lambda-CDM model with `H0 = 70` and `Om0 = 0.3`. -/
theorem init_default_cosmology (α : Type) (sa : α)
    (lightcurve_time sn_type sn_absolute_mag_band sn_absolute_zpsys
      sn_modeldir : Option α) :
    init (some sa) none lightcurve_time sn_type sn_absolute_mag_band
      sn_absolute_zpsys sn_modeldir
      = Except.ok
          ({ lightcurve_time := some lightcurve_time
             sn_type := some sn_type
             sn_absolute_mag_band := some sn_absolute_mag_band
             sn_absolute_zpsys := some sn_absolute_zpsys
             sn_modeldir := some sn_modeldir
             sky_area := some sa
             cosmo := some (CosmoVal.flatLambdaCDM 70 (3 / 10)) },
           [noCosmologyWarning]) := rfl

/-- Claim C3: for every non-`None` `sky_area` and non-`None` `cosmo`,
construction succeeds, emits no warning, and the stored cosmology is
exactly the object passed in (reference-identical). -/
theorem init_given_cosmology (α : Type) (sa c : α)
    (lightcurve_time sn_type sn_absolute_mag_band sn_absolute_zpsys
      sn_modeldir : Option α) :
    init (some sa) (some c) lightcurve_time sn_type sn_absolute_mag_band
      sn_absolute_zpsys sn_modeldir
      = Except.ok
          ({ lightcurve_time := some lightcurve_time
             sn_type := some sn_type
             sn_absolute_mag_band := some sn_absolute_mag_band
             sn_absolute_zpsys := some sn_absolute_zpsys
             sn_modeldir := some sn_modeldir
             sky_area := some sa
             cosmo := some (CosmoVal.given c) },
           []) := rfl

/-- Claim C4: each of the five optional fields is stored verbatim — the
attribute receives exactly the `Option α` value passed (in particular
Python `None`, i.e. `Option.none`, when omitted), with no validation or
transformation, on every run of `__init__`. -/
theorem optional_fields_stored_verbatim (α : Type)
    (sky_area cosmo lightcurve_time sn_type sn_absolute_mag_band
      sn_absolute_zpsys sn_modeldir : Option α) :
    (initRun sky_area cosmo lightcurve_time sn_type sn_absolute_mag_band
        sn_absolute_zpsys sn_modeldir).self.lightcurve_time
        = some lightcurve_time
    ∧ (initRun sky_area cosmo lightcurve_time sn_type sn_absolute_mag_band
        sn_absolute_zpsys sn_modeldir).self.sn_type = some sn_type
    ∧ (initRun sky_area cosmo lightcurve_time sn_type sn_absolute_mag_band
        sn_absolute_zpsys sn_modeldir).self.sn_absolute_mag_band
        = some sn_absolute_mag_band
    ∧ (initRun sky_area cosmo lightcurve_time sn_type sn_absolute_mag_band
        sn_absolute_zpsys sn_modeldir).self.sn_absolute_zpsys
        = some sn_absolute_zpsys
    ∧ (initRun sky_area cosmo lightcurve_time sn_type sn_absolute_mag_band
        sn_absolute_zpsys sn_modeldir).self.sn_modeldir
        = some sn_modeldir := by
  cases sky_area <;> cases cosmo <;> exact ⟨rfl, rfl, rfl, rfl, rfl⟩

/-- Claim C5: after every successful construction, the stored `sky_area`
attribute is non-null and the stored `cosmo` attribute is non-null. -/
theorem constructed_object_invariant (α : Type)
    (sky_area cosmo lightcurve_time sn_type sn_absolute_mag_band
      sn_absolute_zpsys sn_modeldir : Option α)
    (o : LensedPopulationBase α) (ws : List String)
    (h : init sky_area cosmo lightcurve_time sn_type sn_absolute_mag_band
      sn_absolute_zpsys sn_modeldir = Except.ok (o, ws)) :
    o.sky_area.isSome = true ∧ o.cosmo.isSome = true := by
  cases sky_area with
  | none => exact Except.noConfusion h
  | some sa =>
    cases cosmo with
    | none =>
      injection Except.ok.inj h with h1 h2
      subst h1
      exact ⟨rfl, rfl⟩
    | some c =>
      injection Except.ok.inj h with h1 h2
      subst h1
      exact ⟨rfl, rfl⟩

/-- Witness for claim C5 at a concrete input. -/
theorem constructed_object_invariant_witness :
    ({ lightcurve_time := some none
       sn_type := some none
       sn_absolute_mag_band := some none
       sn_absolute_zpsys := some none
       sn_modeldir := some none
       sky_area := some (PyVal.int 1)
       cosmo := some (CosmoVal.flatLambdaCDM 70 (3 / 10)) }
        : LensedPopulationBase PyVal).sky_area.isSome = true
    ∧ ({ lightcurve_time := some none
         sn_type := some none
         sn_absolute_mag_band := some none
         sn_absolute_zpsys := some none
         sn_modeldir := some none
         sky_area := some (PyVal.int 1)
         cosmo := some (CosmoVal.flatLambdaCDM 70 (3 / 10)) }
          : LensedPopulationBase PyVal).cosmo.isSome = true :=
  constructed_object_invariant PyVal (some (PyVal.int 1)) none none none
    none none none _ _ rfl

/-- Claim C6 counterexample: the stored fields are not read-only.  A plain
attribute assignment `obj.sky_area = 2` on an object constructed with
`sky_area = 1` succeeds and changes the stored field, because the class
installs no read-only mechanism. -/
theorem fields_not_read_only :
    ((initRun (some (PyVal.int 1)) (some (PyVal.obj 0)) none none none
        none none).self.set_sky_area (PyVal.int 2)).sky_area
      ≠ (initRun (some (PyVal.int 1)) (some (PyVal.obj 0)) none none none
        none none).self.sky_area := by
  decide

/-- Claim C6 (amended): the seven stored fields are ordinary writable
attributes, not read-only; however, no operation defined by the type
mutates them after construction — each of the four methods returns the
object unchanged. -/
theorem no_operation_mutates_fields (α : Type)
    (self : LensedPopulationBase α) (kwargs : List (String × α)) :
    self.select_lens_at_random.1 = self
    ∧ self.deflector_number.1 = self
    ∧ self.source_number.1 = self
    ∧ (self.draw_population kwargs).1 = self :=
  ⟨rfl, rfl, rfl, rfl⟩

/-- Claim C7: the base type cannot be instantiated directly, and any class
leaving one of the four abstract operations without a concrete override
cannot be instantiated either: the attempt fails immediately with a
`TypeError` (the base type itself is the case `overridden = []`). -/
theorem abstract_class_not_instantiable (α : Type)
    (overridden : List String)
    (sky_area cosmo lightcurve_time sn_type sn_absolute_mag_band
      sn_absolute_zpsys sn_modeldir : Option α)
    (h : ¬ ∀ m ∈ abstractMethods, m ∈ overridden) :
    instantiate overridden sky_area cosmo lightcurve_time sn_type
      sn_absolute_mag_band sn_absolute_zpsys sn_modeldir
      = Except.error (PyError.typeError cantInstantiateMsg) := by
  simp only [instantiate, if_neg h]

/-- Witness for claim C7: instantiating the base type itself (no concrete
overrides) at a concrete input fails with the `TypeError`. -/
theorem abstract_class_not_instantiable_witness :
    instantiate ([] : List String) (some (PyVal.int 1)) none none none
      none none none
      = Except.error (PyError.typeError cantInstantiateMsg) :=
  abstract_class_not_instantiable PyVal ([] : List String)
    (some (PyVal.int 1)) none none none none none none (by decide)

/-- Claim C8: the constructor raises if and only if `sky_area` is `None`;
every non-`None` `sky_area` value — including falsy or non-quantity values
such as `0` or an empty string — is accepted and stored verbatim with no
further validation of type, unit, or sign. -/
theorem init_raises_iff_sky_area_none (α : Type)
    (sky_area cosmo lightcurve_time sn_type sn_absolute_mag_band
      sn_absolute_zpsys sn_modeldir : Option α) :
    ((∃ e, init sky_area cosmo lightcurve_time sn_type sn_absolute_mag_band
        sn_absolute_zpsys sn_modeldir = Except.error e) ↔ sky_area = none)
    ∧ (∀ sa, sky_area = some sa →
        (initRun sky_area cosmo lightcurve_time sn_type sn_absolute_mag_band
          sn_absolute_zpsys sn_modeldir).self.sky_area = some sa) := by
  cases sky_area with
  | none =>
    refine ⟨Iff.intro (fun _ => rfl)
      (fun _ => ⟨PyError.valueError noSkyAreaMsg, rfl⟩), ?_⟩
    intro sa hsa
    exact Option.noConfusion hsa
  | some sa =>
    cases cosmo with
    | none =>
      refine ⟨Iff.intro (fun he => ?_) (fun hn => Option.noConfusion hn), ?_⟩
      · obtain ⟨e, he⟩ := he
        exact Except.noConfusion he
      · intro sb hsb
        injection hsb with h1
        subst h1
        rfl
    | some c =>
      refine ⟨Iff.intro (fun he => ?_) (fun hn => Option.noConfusion hn), ?_⟩
      · obtain ⟨e, he⟩ := he
        exact Except.noConfusion he
      · intro sb hsb
        injection hsb with h1
        subst h1
        rfl

/-- Witness for claim C8: the falsy values `0` and the empty string are
accepted as `sky_area` and stored verbatim. -/
theorem init_raises_iff_sky_area_none_witness :
    (initRun (some (PyVal.int 0)) none none none none none
      none).self.sky_area = some (PyVal.int 0)
    ∧ (initRun (some (PyVal.str (""))) none none none none none
      none).self.sky_area = some (PyVal.str ("")) :=
  ⟨(init_raises_iff_sky_area_none PyVal (some (PyVal.int 0)) none none none
      none none none).2 (PyVal.int 0) rfl,
   (init_raises_iff_sky_area_none PyVal (some (PyVal.str (""))) none none
      none none none none).2 (PyVal.str ("")) rfl⟩

/-- Claim C9: when construction fails because `sky_area` is `None`, the
failure is not atomic and precedes the cosmology handling: the five
optional attributes have already been assigned on the partially built
object when the error is raised, and no cosmology warning has been emitted
even when `cosmo` is also `None`. -/
theorem init_failure_after_optional_assignments (α : Type)
    (cosmo lightcurve_time sn_type sn_absolute_mag_band sn_absolute_zpsys
      sn_modeldir : Option α) :
    (initRun none cosmo lightcurve_time sn_type sn_absolute_mag_band
        sn_absolute_zpsys sn_modeldir).error
        = some (PyError.valueError noSkyAreaMsg)
    ∧ (initRun none cosmo lightcurve_time sn_type sn_absolute_mag_band
        sn_absolute_zpsys sn_modeldir).self.lightcurve_time
        = some lightcurve_time
    ∧ (initRun none cosmo lightcurve_time sn_type sn_absolute_mag_band
        sn_absolute_zpsys sn_modeldir).self.sn_type = some sn_type
    ∧ (initRun none cosmo lightcurve_time sn_type sn_absolute_mag_band
        sn_absolute_zpsys sn_modeldir).self.sn_absolute_mag_band
        = some sn_absolute_mag_band
    ∧ (initRun none cosmo lightcurve_time sn_type sn_absolute_mag_band
        sn_absolute_zpsys sn_modeldir).self.sn_absolute_zpsys
        = some sn_absolute_zpsys
    ∧ (initRun none cosmo lightcurve_time sn_type sn_absolute_mag_band
        sn_absolute_zpsys sn_modeldir).self.sn_modeldir = some sn_modeldir
    ∧ (initRun none cosmo lightcurve_time sn_type sn_absolute_mag_band
        sn_absolute_zpsys sn_modeldir).warnings = [] :=
  ⟨rfl, rfl, rfl, rfl, rfl, rfl, rfl⟩

/-- Claim C10: each of the four abstract operations has a body consisting
only of `pass`, so invoking the inherited base-class implementation leaves
the object unchanged and returns `None` rather than raising an error. -/
theorem abstract_method_bodies_return_none (α : Type)
    (self : LensedPopulationBase α) (kwargs : List (String × α)) :
    self.select_lens_at_random = (self, Except.ok none)
    ∧ self.deflector_number = (self, Except.ok none)
    ∧ self.source_number = (self, Except.ok none)
    ∧ self.draw_population kwargs = (self, Except.ok none) :=
  ⟨rfl, rfl, rfl, rfl⟩

end Slsim
